import Mathlib

/-!
Shallow embedding of `invenio_userprofiles/forms.py` (rero/invenio-userprofiles).

Strings from the Python side are modelled as `List Char`; a Python value that
may be `None` is modelled as `Option (List Char)`.  Python exceptions that a
validator raises (`ValidationError`, `ValueError`, `TypeError`) are modelled
with `Except String`, the error carrying the message.  Whitespace and case
mapping are modelled on the ASCII fragment, which is what the form data in
this module ranges over (`Char.toLower` from core Lean is exactly Python
`str.lower` on that fragment).

External collaborators of the module (the database lookup
`UserProfile.get_by_username`, the syntactic rules `validators.validate_username`,
the flask_security validators `email_validator` / `unique_user_email`, and the
application configuration) are passed as explicit parameters, so every theorem
quantifies over their behaviour.
-/

/-- Python ASCII whitespace, the characters removed by `str.strip()`. -/
def pyWhitespace (c : Char) : Bool :=
  c == ' ' || c == '\t' || c == '\n' || c == '\r' || c == '\x0b' || c == '\x0c'

/-- Removal of the leading whitespace run, the left half of Python `str.strip()`. -/
def stripLeft (l : List Char) : List Char :=
  l.dropWhile pyWhitespace

/-- Removal of the trailing whitespace run, the right half of Python `str.strip()`. -/
def stripRight (l : List Char) : List Char :=
  (l.reverse.dropWhile pyWhitespace).reverse

/-- Python `str.strip()`: leading and trailing whitespace removed. -/
def pyStrip (l : List Char) : List Char :=
  stripRight (stripLeft l)

/-- Embedding of `strip_filter` from forms.py:
`return text.strip() if text else text`.  `None` and the empty string are
falsy, so they are returned unchanged. -/
def strip_filter (t : Option (List Char)) : Option (List Char) :=
  match t with
  | none => none
  | some s => if s.isEmpty then some s else some (pyStrip s)

/-- Python `str.lower()` on the ASCII fragment (`Char.toLower` maps A-Z to a-z
and fixes every other character, exactly as Python does on ASCII). -/
def pyLower (l : List Char) : List Char :=
  l.map Char.toLower

/-- Embedding of the filter on `EmailProfileForm.email`:
`lambda x: x.lower() if x is not None else x`. -/
def emailLowerFilter (x : Option (List Char)) : Option (List Char) :=
  x.map pyLower

/-- Embedding of the filter on `EmailProfileForm.email_repeat`:
`lambda x: x.lower() if x else x` (both `None` and the empty string are falsy
and returned unchanged). -/
def emailRepeatLowerFilter (x : Option (List Char)) : Option (List Char) :=
  match x with
  | none => none
  | some s => if s.isEmpty then some s else some (pyLower s)

/-- First alternative of the phone-field pattern: Python
`re.match` of `^\+[0-9]*$|^$` succeeds through the first branch exactly when
the string is a plus sign followed by decimal digits, optionally followed by
one final newline, because in Python `$` (without `re.MULTILINE`) matches at
the end of the string and also just before a newline that ends the string. -/
def plusDigitsBranch (s : List Char) : Bool :=
  match s with
  | [] => false
  | c :: r =>
      c == '+' &&
        (r.all Char.isDigit ||
          (r.getLast? == some '\n' && r.dropLast.all Char.isDigit))

/-- Embedding of Python `re.match` of the phone pattern `^\+[0-9]*$|^$` as a
whole: the first branch as above, or the `^$` branch, which matches the empty
string and also the string consisting of a single newline (again because `$`
matches before a trailing newline). -/
def phoneRegexMatch (s : List Char) : Bool :=
  plusDigitsBranch s || s == ([] : List Char) || s == ['\n']

/-- A plus sign followed by zero or more decimal digits, the shape the
spec describes for a phone value. -/
def isPlusDigits (s : List Char) : Bool :=
  match s with
  | [] => false
  | c :: r => c == '+' && r.all Char.isDigit

/-- Error message of the phone-field `Regexp` validators in forms.py. -/
def phoneMessage : String :=
  "Phone number with the international prefix, without spaces, ie +41221234567."

/-- Embedding of the WTForms `Regexp` validator on the phone fields: it runs
the regex on the field data, a missing value standing in as the empty
string and raises `ValidationError(message)` when there is no match. -/
def phoneRegexpValidator (data : Option (List Char)) : Except String Unit :=
  if phoneRegexMatch (data.getD []) then Except.ok () else Except.error phoneMessage

/-- Processing of a submitted phone-field value: WTForms applies the filters
of the field (here `strip_filter`) to the data and only then runs the validators
(here the `Regexp` validator). -/
def phoneFieldValidate (raw : Option (List Char)) : Except String Unit :=
  phoneRegexpValidator (strip_filter raw)

/-- Row returned by the single-row lookup `UserProfile.get_by_username`. -/
structure UserProfileRec where
  user_id : Nat

/-- State of `current_userprofile` as read by `ProfileForm.validate_username`. -/
structure CurrentProfile where
  is_anonymous : Bool
  user_id : Nat
  username : List Char

/-- Embedding of `ProfileForm.validate_username` from forms.py.
`syn` models `validators.validate_username` (the syntactic rules imported from
the validators module, external to this file): `Except.error e` models a
raised `ValueError` with message `e`, which the method converts into a
`ValidationError` with the same message.  `lookup` models
`UserProfile.get_by_username`: `none` models a raised `NoResultFound`, which
the method catches and returns; when a row is found, the method raises
`ValidationError` with the fixed message exactly when the current profile is
anonymous, or the found row belongs to a different `user_id` and the submitted
value differs from the current profile username. -/
def profileForm_validate_username (syn : List Char → Except String Unit)
    (lookup : List Char → Option UserProfileRec)
    (cur : CurrentProfile) (data : List Char) : Except String Unit :=
  match syn data with
  | Except.error e => Except.error e
  | Except.ok () =>
    match lookup data with
    | none => Except.ok ()
    | some p =>
        if cur.is_anonymous || (!(cur.user_id == p.user_id) && !(data == cur.username)) then
          Except.error "Username already exists."
        else
          Except.ok ()

/-- Embedding of the validator chain of `EmailProfileForm.email_repeat`:
`Optional()` then `EqualTo` against the email field with the mismatch message.
`raw` is the raw submitted value (`none` when the field was not submitted);
`Optional` stops validation, clearing errors, when the field was not submitted
or the raw value strips to the empty string.  Otherwise `EqualTo` compares the
field data after the lowercasing filter with `emailData`, the processed data
of the `email` field. -/
def email_repeat_validate (raw : Option (List Char))
    (emailData : Option (List Char)) : Except String Unit :=
  match raw with
  | none => Except.ok ()
  | some r =>
      if (pyStrip r).isEmpty then Except.ok ()
      else if emailRepeatLowerFilter (some r) = emailData then Except.ok ()
      else Except.error "Email addresses do not match."

/-- Embedding of the validator `current_user_email` from forms.py: it raises
`StopValidation` (stopping the chain with the field passing) exactly when the
current user stored email equals the field data. -/
def current_user_email (storedEmail data : List Char) : Bool :=
  storedEmail == data

/-- Embedding of the validator chain of `EmailProfileForm.email`:
`Optional()`, `current_user_email`, `email_validator`, `unique_user_email`,
run on the field data obtained from the raw value by the lowercasing filter.
`fmtCheck` and `uniqCheck` model the two flask_security validators (external
to this module): `Except.error m` models a raised `ValidationError` with
message `m`. -/
def email_field_validate (storedEmail : List Char)
    (fmtCheck uniqCheck : List Char → Except String Unit)
    (raw : Option (List Char)) : Except String Unit :=
  match raw with
  | none => Except.ok ()
  | some r =>
      if (pyStrip r).isEmpty then Except.ok ()
      else
        let d := pyLower r
        if current_user_email storedEmail d then Except.ok ()
        else
          match fmtCheck d with
          | Except.error m => Except.error m
          | Except.ok () =>
            match uniqCheck d with
            | Except.error m => Except.error m
            | Except.ok () => Except.ok ()

/-- A value stored under the configuration key `USERPROFILES_READONLY_FIELDS`:
either a plain list (in particular the default `[]` that
`current_app.config.get` supplies when the key is absent) or a callable
returning the list of field names. -/
inductive ConfigVal where
  | pyList : List String → ConfigVal
  | callable : (Unit → List String) → ConfigVal

/-- Embedding of the read-only part of `ProfileForm.__init__`:
reading the key USERPROFILES_READONLY_FIELDS from the application
configuration with the default value of an empty list,
followed by `for field in get_readonly_fields(): read_only(...)`.  The value
read from the configuration is called; calling the default list raises
`TypeError`.  On success the result is the list of field names marked
read-only (each is passed to `read_only`). -/
def profileForm_init_readonly (cfg : Option ConfigVal) : Except String (List String) :=
  match cfg.getD (ConfigVal.pyList []) with
  | ConfigVal.callable f => Except.ok (f ())
  | ConfigVal.pyList _ => Except.error "TypeError: list object is not callable"

/-- Embedding of the country part of `ProfileForm.__init__`:
the key USERPROFILES_COUNTRIES is read from the application configuration
and, when the value is truthy, called and assigned to the country choices.  The configured
value is a callable, and a callable is always truthy in Python, so the choices
are replaced exactly when the key is present; the field declaration left them
empty. -/
def profileForm_init_countries (cfg : Option (Unit → List (String × String))) :
    List (String × String) :=
  match cfg with
  | none => []
  | some f => f ()

/-- Kind of a WTForms field used in `ProfileForm`. -/
inductive FieldKind where
  | stringField
  | dateField
  | selectField
  | booleanField
deriving DecidableEq

/-- Declarative data of one field of `ProfileForm`: its kind, whether
`strip_filter` is among its filters, whether the phone `Regexp` validator is
among its validators, and its declared choices (for select fields). -/
structure FieldSpec where
  kind : FieldKind
  hasStripFilter : Bool
  hasPhoneRegexp : Bool
  choices : List (String × String)
deriving DecidableEq

/-- The field declarations of `ProfileForm` in forms.py, in source order. -/
def profileFormFields : List (String × FieldSpec) :=
  [("username", ⟨FieldKind.stringField, true, false, []⟩),
   ("last_name", ⟨FieldKind.stringField, true, false, []⟩),
   ("first_name", ⟨FieldKind.stringField, true, false, []⟩),
   ("birth_date", ⟨FieldKind.dateField, false, false, []⟩),
   ("street", ⟨FieldKind.stringField, true, false, []⟩),
   ("postal_code", ⟨FieldKind.stringField, true, false, []⟩),
   ("city", ⟨FieldKind.stringField, true, false, []⟩),
   ("home_phone", ⟨FieldKind.stringField, true, true, []⟩),
   ("business_phone", ⟨FieldKind.stringField, true, true, []⟩),
   ("mobile_phone", ⟨FieldKind.stringField, true, true, []⟩),
   ("other_phone", ⟨FieldKind.stringField, true, true, []⟩),
   ("gender", ⟨FieldKind.selectField, false, false,
      [("male", "male"), ("female", "female"), ("other", "other")]⟩),
   ("country", ⟨FieldKind.selectField, false, false, []⟩),
   ("keep_history", ⟨FieldKind.booleanField, false, false, []⟩)]

/-- Lookup of a field declaration of `ProfileForm` by name. -/
def fieldSpecOf (n : String) : Option FieldSpec :=
  (profileFormFields.find? (fun p => p.1 == n)).map Prod.snd

/-- Python value stored in a keyword-argument dictionary. -/
inductive PyVal where
  | vbool : Bool → PyVal
  | vstr : String → PyVal
  | vdict : List (String × PyVal) → PyVal

/-- A Python keyword-argument dictionary, keys in insertion order. -/
abbrev Kwargs := List (String × PyVal)

/-- Python `d[k]` as a total lookup: the value under the first matching key. -/
def dictGet (d : Kwargs) (k : String) : Option PyVal :=
  match d with
  | [] => none
  | (k1, v) :: t => if k1 = k then some v else dictGet t k

/-- Python `d[k] = v`: the value is replaced in place when the key exists,
otherwise the binding is appended. -/
def dictSet (d : Kwargs) (k : String) (v : PyVal) : Kwargs :=
  match d with
  | [] => [(k, v)]
  | (k1, v1) :: t => if k1 = k then (k1, v) :: t else (k1, v1) :: dictSet t k v

/-- Python `d.setdefault(k, v)`: the binding is appended only when the key is
absent. -/
def dictSetdefault (d : Kwargs) (k : String) (v : PyVal) : Kwargs :=
  match dictGet d k with
  | some _ => d
  | none => d ++ [(k, v)]

/-- Embedding of `_update_with_csrf_disabled` from forms.py.  `supportsMeta`
models `parse_version(flask_wtf.__version__) >= parse_version("0.14.0")`.
A `none` argument models the default of a missing dictionary, replaced by a
fresh empty one.  On a new enough flask_wtf the function setdefaults the
meta entry to an empty dictionary and then updates the csrf entry inside it
to False; when the existing value under meta is not a dictionary that
update raises `AttributeError`, modelled as an error.  On an old flask_wtf
it assigns False under the csrf_enabled key. -/
def update_with_csrf_disabled (supportsMeta : Bool) (d : Option Kwargs) :
    Except String Kwargs :=
  let d0 := d.getD []
  if supportsMeta then
    let d1 := dictSetdefault d0 "meta" (PyVal.vdict [])
    match dictGet d1 "meta" with
    | some (PyVal.vdict m) =>
        Except.ok (dictSet d1 "meta" (PyVal.vdict (dictSet m "csrf" (PyVal.vbool false))))
    | _ => Except.error "AttributeError: no update method"
  else
    Except.ok (dictSet d0 "csrf_enabled" (PyVal.vbool false))

/-- The `profile` field that the two factories add: a `FormField` with its
separator and the keyword transformation its inner form class applies on
construction. -/
structure ProfileFormField where
  separator : String
  innerInitKwargs : Bool → Option Kwargs → Except String Kwargs

/-- The class returned by a factory: the given base form extended with the
`profile` field. -/
structure ExtendedRegForm (B : Type) where
  base : B
  profile : ProfileFormField

/-- Embedding of `CsrfDisabledProfileForm.__init__` (defined identically inside
both factories): the constructor keyword arguments are passed through
`_update_with_csrf_disabled` before reaching the `ProfileForm` constructor. -/
def csrfDisabledProfileForm_init_kwargs (supportsMeta : Bool)
    (kwargs : Option Kwargs) : Except String Kwargs :=
  update_with_csrf_disabled supportsMeta kwargs

/-- Embedding of `register_form_factory` from forms.py: the given base form is
extended with a `profile` `FormField` (separator `.`) whose inner form is the
CSRF-disabled `ProfileForm` subclass. -/
def register_form_factory {B : Type} (b : B) : ExtendedRegForm B :=
  { base := b,
    profile := { separator := ".",
                 innerInitKwargs := csrfDisabledProfileForm_init_kwargs } }

/-- Embedding of `confirm_register_form_factory` from forms.py: same extension
as `register_form_factory`, returned as the confirm-register class. -/
def confirm_register_form_factory {B : Type} (b : B) : ExtendedRegForm B :=
  { base := b,
    profile := { separator := ".",
                 innerInitKwargs := csrfDisabledProfileForm_init_kwargs } }

theorem dropWhile_head?_false {α : Type} (p : α → Bool) (l : List α) (a : α)
    (h : (l.dropWhile p).head? = some a) : p a = false := by
  induction l with
  | nil => simp [List.dropWhile] at h
  | cons b t ih =>
    rw [List.dropWhile_cons] at h
    by_cases hb : p b = true
    · rw [if_pos hb] at h
      exact ih h
    · rw [if_neg hb] at h
      rw [List.head?_cons] at h
      injection h with h
      rw [← h]
      exact Bool.eq_false_iff.mpr hb

theorem dropWhile_eq_self_of_head {α : Type} (p : α → Bool) (l : List α)
    (h : ∀ a, l.head? = some a → p a = false) : l.dropWhile p = l := by
  cases l with
  | nil => rfl
  | cons b t =>
    rw [List.dropWhile_cons, if_neg]
    rw [h b rfl]
    simp

theorem dropWhile_suffix_decomp {α : Type} (p : α → Bool) (l : List α) :
    ∃ t, l = t ++ l.dropWhile p := by
  induction l with
  | nil => exact ⟨[], rfl⟩
  | cons b t ih =>
    by_cases hb : p b = true
    · obtain ⟨u, hu⟩ := ih
      refine ⟨b :: u, ?_⟩
      rw [List.dropWhile_cons, if_pos hb, List.cons_append, ← hu]
    · refine ⟨[], ?_⟩
      rw [List.dropWhile_cons, if_neg hb, List.nil_append]

theorem stripRight_head? (m : List Char) (a : Char)
    (h : (stripRight m).head? = some a) : m.head? = some a := by
  obtain ⟨t, ht⟩ := dropWhile_suffix_decomp pyWhitespace m.reverse
  have hm : m = (m.reverse.dropWhile pyWhitespace).reverse ++ t.reverse := by
    have h2 := congrArg List.reverse ht
    rwa [List.reverse_reverse, List.reverse_append] at h2
  rw [stripRight] at h
  rw [hm, List.head?_append, h]
  rfl

theorem pyStrip_head? (l : List Char) (a : Char)
    (h : (pyStrip l).head? = some a) : pyWhitespace a = false := by
  have h1 : (stripLeft l).head? = some a := stripRight_head? _ _ h
  exact dropWhile_head?_false _ _ _ h1

theorem stripRight_getLast? (m : List Char) (a : Char)
    (h : (stripRight m).getLast? = some a) : pyWhitespace a = false := by
  rw [stripRight, List.getLast?_reverse] at h
  exact dropWhile_head?_false _ _ _ h

theorem pyStrip_getLast? (l : List Char) (a : Char)
    (h : (pyStrip l).getLast? = some a) : pyWhitespace a = false :=
  stripRight_getLast? _ _ h

theorem pyStrip_idem (l : List Char) : pyStrip (pyStrip l) = pyStrip l := by
  have h1 : stripLeft (pyStrip l) = pyStrip l :=
    dropWhile_eq_self_of_head _ _ (fun a ha => pyStrip_head? l a ha)
  show stripRight (stripLeft (pyStrip l)) = pyStrip l
  rw [h1]
  have h2 : (pyStrip l).reverse.dropWhile pyWhitespace = (pyStrip l).reverse := by
    apply dropWhile_eq_self_of_head
    intro a ha
    rw [List.head?_reverse] at ha
    exact pyStrip_getLast? l a ha
  rw [stripRight, h2, List.reverse_reverse]

theorem strip_filter_some (v : List Char) : strip_filter (some v) = some (pyStrip v) := by
  show (if v.isEmpty = true then some v else some (pyStrip v)) = some (pyStrip v)
  by_cases hv : v.isEmpty = true
  · rw [if_pos hv]
    rw [List.isEmpty_iff] at hv
    rw [hv]
    rfl
  · rw [if_neg hv]

theorem strip_filter_idem (t : Option (List Char)) :
    strip_filter (strip_filter t) = strip_filter t := by
  cases t with
  | none => rfl
  | some s =>
    rw [strip_filter_some, strip_filter_some, pyStrip_idem]

theorem char_toNat_ofNat_valid (n : Nat) (h : n.isValidChar) :
    (Char.ofNat n).toNat = n := by
  unfold Char.ofNat
  rw [dif_pos h]
  simp [Char.ofNatAux, Char.toNat, UInt32.toNat, BitVec.toNat, BitVec.ofNatLt]

theorem char_toLower_idem (c : Char) :
    Char.toLower (Char.toLower c) = Char.toLower c := by
  unfold Char.toLower
  by_cases h : c.toNat ≥ 65 ∧ c.toNat ≤ 90
  · rw [if_pos h]
    have hv : (c.toNat + 32).isValidChar := Or.inl (by omega)
    rw [char_toNat_ofNat_valid _ hv, if_neg (by omega)]
  · rw [if_neg h, if_neg h]

theorem pyLower_idem (s : List Char) : pyLower (pyLower s) = pyLower s := by
  induction s with
  | nil => rfl
  | cons c t ih =>
    show Char.toLower (Char.toLower c) :: pyLower (pyLower t) =
      Char.toLower c :: pyLower t
    rw [char_toLower_idem, ih]

theorem pyLower_isEmpty (s : List Char) : (pyLower s).isEmpty = s.isEmpty := by
  cases s <;> rfl

theorem emailLowerFilter_idem (t : Option (List Char)) :
    emailLowerFilter (emailLowerFilter t) = emailLowerFilter t := by
  cases t with
  | none => rfl
  | some s =>
    show some (pyLower (pyLower s)) = some (pyLower s)
    rw [pyLower_idem]

theorem emailRepeatLowerFilter_idem (t : Option (List Char)) :
    emailRepeatLowerFilter (emailRepeatLowerFilter t) = emailRepeatLowerFilter t := by
  cases t with
  | none => rfl
  | some s =>
    have hs : ∀ u : List Char, emailRepeatLowerFilter (some u) =
        (if u.isEmpty = true then some u else some (pyLower u)) := fun _ => rfl
    rw [hs]
    by_cases h : s.isEmpty = true
    · rw [if_pos h, hs, if_pos h]
    · rw [if_neg h, hs, pyLower_isEmpty, if_neg h, pyLower_idem]

theorem phoneRegexMatch_of_no_trailing_ws (s : List Char)
    (h : ∀ a, s.getLast? = some a → pyWhitespace a = false) :
    phoneRegexMatch s = (s.isEmpty || isPlusDigits s) := by
  cases s with
  | nil => rfl
  | cons c r =>
    have hlast : ∀ a, (c :: r).getLast? = some a → a ≠ '\n' := by
      intro a ha hEq
      have hw := h a ha
      rw [hEq] at hw
      exact absurd hw (by decide)
    have hnl : (r.getLast? == some '\n') = false := by
      cases r with
      | nil => rfl
      | cons b t =>
        cases hg : (b :: t).getLast? with
        | none => rfl
        | some a =>
          have ha : a ≠ '\n' := hlast a (by rw [List.getLast?_cons_cons, hg])
          simpa using ha
    have hne : ((c :: r) == (['\n'] : List Char)) = false := by
      have : (c :: r) ≠ (['\n'] : List Char) := by
        intro hEq
        exact hlast '\n' (by rw [hEq]; rfl) rfl
      simpa using this
    have hnil : ((c :: r) == ([] : List Char)) = false := by
      simp
    show (plusDigitsBranch (c :: r) || ((c :: r) == ([] : List Char)) ||
        ((c :: r) == (['\n'] : List Char))) = ((c :: r).isEmpty || isPlusDigits (c :: r))
    rw [hne, hnil]
    show (plusDigitsBranch (c :: r) || false || false) = (false || isPlusDigits (c :: r))
    rw [Bool.or_false, Bool.or_false, Bool.false_or]
    show (c == '+' && (r.all Char.isDigit ||
        (r.getLast? == some '\n' && r.dropLast.all Char.isDigit))) =
      (c == '+' && r.all Char.isDigit)
    rw [hnl, Bool.false_and, Bool.or_false]

theorem phoneFieldValidate_some (v : List Char) :
    phoneFieldValidate (some v) =
      (if ((pyStrip v).isEmpty || isPlusDigits (pyStrip v)) = true
        then Except.ok () else Except.error phoneMessage) := by
  show phoneRegexpValidator (strip_filter (some v)) = _
  rw [strip_filter_some]
  show (if phoneRegexMatch ((some (pyStrip v)).getD []) = true
      then Except.ok () else Except.error phoneMessage) = _
  rw [Option.getD_some, phoneRegexMatch_of_no_trailing_ws _ (pyStrip_getLast? v)]

theorem dictGet_dictSet_self (d : Kwargs) (k : String) (v : PyVal) :
    dictGet (dictSet d k v) k = some v := by
  induction d with
  | nil => simp [dictSet, dictGet]
  | cons p t ih =>
    obtain ⟨k1, v1⟩ := p
    by_cases hk : k1 = k
    · simp [dictSet, dictGet, hk]
    · simp [dictSet, dictGet, hk, ih]

theorem dictGet_dictSet_ne (d : Kwargs) (k k1 : String) (v : PyVal)
    (h : k1 ≠ k) : dictGet (dictSet d k v) k1 = dictGet d k1 := by
  induction d with
  | nil => simp [dictSet, dictGet, Ne.symm h]
  | cons p t ih =>
    obtain ⟨k2, v2⟩ := p
    by_cases hk : k2 = k
    · subst hk
      simp [dictSet, dictGet, Ne.symm h]
    · simp [dictSet, dictGet, hk, ih]

theorem dictGet_append (d1 d2 : Kwargs) (k : String) :
    dictGet (d1 ++ d2) k = (dictGet d1 k).or (dictGet d2 k) := by
  induction d1 with
  | nil => simp [dictGet]
  | cons p t ih =>
    obtain ⟨k1, v1⟩ := p
    by_cases hk : k1 = k
    · simp [dictGet, hk]
    · simp [dictGet, hk, ih]

theorem dictGet_dictSetdefault_ne (d : Kwargs) (k k1 : String) (v : PyVal)
    (h : k1 ≠ k) : dictGet (dictSetdefault d k v) k1 = dictGet d k1 := by
  unfold dictSetdefault
  cases hg : dictGet d k with
  | some w => rfl
  | none =>
    rw [dictGet_append]
    have : dictGet [(k, v)] k1 = none := by
      simp [dictGet, Ne.symm h]
    rw [this, Option.or_none]

theorem dictGet_dictSetdefault_self (d : Kwargs) (k : String) (v : PyVal) :
    dictGet (dictSetdefault d k v) k = some ((dictGet d k).getD v) := by
  unfold dictSetdefault
  cases hg : dictGet d k with
  | some w => rw [hg]; rfl
  | none =>
    rw [dictGet_append, hg, Option.none_or]
    simp [dictGet]

theorem dictSetdefault_of_mem (d : Kwargs) (k : String) (v w : PyVal)
    (h : dictGet d k = some w) : dictSetdefault d k v = d := by
  unfold dictSetdefault
  rw [h]

theorem profileForm_validate_username_found (syn : List Char → Except String Unit)
    (lookup : List Char → Option UserProfileRec) (cur : CurrentProfile)
    (data : List Char) (p : UserProfileRec)
    (h : syn data = Except.ok ()) (hl : lookup data = some p) :
    profileForm_validate_username syn lookup cur data =
      (if cur.is_anonymous || (!(cur.user_id == p.user_id) && !(data == cur.username))
        then Except.error "Username already exists." else Except.ok ()) := by
  unfold profileForm_validate_username
  rw [h, hl]

theorem profileForm_validate_username_not_found (syn : List Char → Except String Unit)
    (lookup : List Char → Option UserProfileRec) (cur : CurrentProfile)
    (data : List Char)
    (h : syn data = Except.ok ()) (hl : lookup data = none) :
    profileForm_validate_username syn lookup cur data = Except.ok () := by
  unfold profileForm_validate_username
  rw [h, hl]

/-- C1: when the syntactic username rules accept the submitted value,
`ProfileForm.validate_username` raises `ValidationError` with message
`Username already exists.` if and only if the single-row lookup finds a
profile with that username and either the current profile is anonymous, or
the found profile belongs to a different user id and the submitted value
differs from the current profile username; and when the lookup raises
`NoResultFound` the validator returns without error. -/
theorem C1_validate_username_uniqueness (syn : List Char → Except String Unit)
    (lookup : List Char → Option UserProfileRec) (cur : CurrentProfile)
    (data : List Char) (h : syn data = Except.ok ()) :
    (profileForm_validate_username syn lookup cur data =
        Except.error "Username already exists." ↔
      ∃ p, lookup data = some p ∧
        (cur.is_anonymous = true ∨
          (cur.user_id ≠ p.user_id ∧ data ≠ cur.username))) ∧
    (lookup data = none →
      profileForm_validate_username syn lookup cur data = Except.ok ()) := by
  cases hl : lookup data with
  | none =>
    have hok := profileForm_validate_username_not_found syn lookup cur data h hl
    constructor
    · constructor
      · intro habs
        rw [hok] at habs
        exact absurd habs (by simp)
      · rintro ⟨p, hp, _⟩
        exact absurd hp (by simp)
    · intro _
      exact hok
  | some p =>
    have hf := profileForm_validate_username_found syn lookup cur data p h hl
    constructor
    · by_cases hc : (cur.is_anonymous ||
          (!(cur.user_id == p.user_id) && !(data == cur.username))) = true
      · rw [hf, if_pos hc]
        simp only [Bool.or_eq_true, Bool.and_eq_true, Bool.not_eq_true',
          beq_eq_false_iff_ne] at hc
        constructor
        · intro _
          exact ⟨p, rfl, hc⟩
        · intro _
          rfl
      · rw [hf, if_neg hc]
        constructor
        · intro habs
          exact absurd habs (by simp)
        · rintro ⟨q, hq, hcond⟩
          injection hq with hq
          subst hq
          have hb : (cur.is_anonymous ||
              (!(cur.user_id == p.user_id) && !(data == cur.username))) = true := by
            simp only [Bool.or_eq_true, Bool.and_eq_true, Bool.not_eq_true',
              beq_eq_false_iff_ne]
            exact hcond
          exact absurd hb hc
    · intro habs
      exact absurd habs (by simp)

theorem C1_validate_username_uniqueness_witness :
    ((fun _ => Except.ok ()) : List Char → Except String Unit) ['b'] = Except.ok () ∧
    profileForm_validate_username (fun _ => Except.ok ())
      (fun _ => some ⟨7⟩) ⟨true, 0, []⟩ ['b'] = Except.error "Username already exists." :=
  ⟨rfl, (C1_validate_username_uniqueness (fun _ => Except.ok ())
      (fun _ => some ⟨7⟩) ⟨true, 0, []⟩ ['b'] rfl).1.mpr ⟨⟨7⟩, rfl, Or.inl rfl⟩⟩

/-- C10: `ProfileForm.validate_username` runs the syntactic username rules
first; a `ValueError` they raise is converted into a user-facing
`ValidationError` carrying the same message, and in that case the result does
not depend on the database lookup or the current profile at all, so a
syntactically invalid username never reaches the lookup. -/
theorem C10_syntactic_check_first (syn : List Char → Except String Unit)
    (lookup1 lookup2 : List Char → Option UserProfileRec)
    (cur1 cur2 : CurrentProfile) (data : List Char) (e : String)
    (h : syn data = Except.error e) :
    profileForm_validate_username syn lookup1 cur1 data = Except.error e ∧
    profileForm_validate_username syn lookup1 cur1 data =
      profileForm_validate_username syn lookup2 cur2 data := by
  constructor
  · unfold profileForm_validate_username
    rw [h]
  · unfold profileForm_validate_username
    rw [h]

theorem C10_syntactic_check_first_witness :
    ((fun _ => Except.error "bad") : List Char → Except String Unit) ['u'] =
      Except.error "bad" ∧
    profileForm_validate_username (fun _ => Except.error "bad")
      (fun _ => some ⟨1⟩) ⟨true, 0, []⟩ ['u'] = Except.error "bad" :=
  ⟨rfl, (C10_syntactic_check_first (fun _ => Except.error "bad")
      (fun _ => some ⟨1⟩) (fun _ => none) ⟨true, 0, []⟩ ⟨false, 2, ['u']⟩
      ['u'] "bad" rfl).1⟩

/-- C2 counterexample: the submitted value consisting of a space, a plus,
two digits and a space is neither the empty string nor a plus sign followed
by digits, yet the phone field accepts it without error, because the
whitespace-stripping filter runs before the `Regexp` validator.  The claim
as stated, quantified over submitted values, is therefore false. -/
theorem C2_phone_counterexample :
    phoneFieldValidate (some [' ', '+', '4', '1', ' ']) = Except.ok () ∧
    ([' ', '+', '4', '1', ' '] : List Char) ≠ [] ∧
    isPlusDigits [' ', '+', '4', '1', ' '] = false :=
  ⟨rfl, by decide, rfl⟩

/-- C2 (amended): for each of the four phone fields, a submitted value passes
the field exactly when, after the whitespace-stripping filter is applied, the
value is the empty string or a leading plus sign followed by zero or more
decimal digits; every other value raises the user-facing phone message. -/
theorem C2_phone_amended (v : List Char) :
    (phoneFieldValidate (some v) = Except.ok () ↔
      ((pyStrip v).isEmpty = true ∨ isPlusDigits (pyStrip v) = true)) ∧
    (phoneFieldValidate (some v) = Except.ok () ∨
      phoneFieldValidate (some v) = Except.error phoneMessage) := by
  rw [phoneFieldValidate_some]
  by_cases hc : ((pyStrip v).isEmpty || isPlusDigits (pyStrip v)) = true
  · rw [if_pos hc]
    rw [Bool.or_eq_true] at hc
    exact ⟨⟨fun _ => hc, fun _ => rfl⟩, Or.inl rfl⟩
  · rw [if_neg hc]
    constructor
    · constructor
      · intro habs
        exact absurd habs (by simp)
      · intro hor
        rw [← Bool.or_eq_true] at hor
        exact absurd hor hc
    · exact Or.inr rfl

/-- C3 counterexample: a submitted `email_repeat` consisting of a single
space is non-empty after the lowercasing filter and differs from the email
value, yet the field passes without error, because the `Optional` validator
stops the chain on a raw value that strips to the empty string.  The claim
as stated is therefore false. -/
theorem C3_email_repeat_counterexample :
    email_repeat_validate (some [' ']) (some ['a', '@', 'b']) = Except.ok () ∧
    emailRepeatLowerFilter (some [' ']) = some [' '] ∧
    (some [' '] : Option (List Char)) ≠ some ['a', '@', 'b'] ∧
    ([' '] : List Char) ≠ [] :=
  ⟨rfl, rfl, by decide, by decide⟩

/-- C3 (amended): the `email_repeat` field fails with the message
`Email addresses do not match.` exactly when the field was submitted, the raw
value does not strip to the empty string, and the value after the lowercasing
filter differs from the processed value of the `email` field. -/
theorem C3_email_repeat_amended (raw emailData : Option (List Char)) :
    email_repeat_validate raw emailData =
        Except.error "Email addresses do not match." ↔
      ∃ r, raw = some r ∧ (pyStrip r).isEmpty = false ∧
        emailRepeatLowerFilter (some r) ≠ emailData := by
  cases raw with
  | none =>
    constructor
    · intro habs
      exact absurd habs (by simp [email_repeat_validate])
    · rintro ⟨r, hr, _⟩
      exact absurd hr (by simp)
  | some r =>
    have hv : email_repeat_validate (some r) emailData =
        (if (pyStrip r).isEmpty = true then Except.ok ()
         else if emailRepeatLowerFilter (some r) = emailData then Except.ok ()
         else Except.error "Email addresses do not match.") := rfl
    rw [hv]
    by_cases h1 : (pyStrip r).isEmpty = true
    · rw [if_pos h1]
      constructor
      · intro habs
        exact absurd habs (by simp)
      · rintro ⟨r2, hr2, hem, _⟩
        injection hr2 with hr2
        subst hr2
        rw [h1] at hem
        exact absurd hem (by decide)
    · rw [if_neg h1]
      have h1f : (pyStrip r).isEmpty = false := Bool.eq_false_iff.mpr h1
      by_cases h2 : emailRepeatLowerFilter (some r) = emailData
      · rw [if_pos h2]
        constructor
        · intro habs
          exact absurd habs (by simp)
        · rintro ⟨r2, hr2, _, hne⟩
          injection hr2 with hr2
          subst hr2
          exact absurd h2 hne
      · rw [if_neg h2]
        exact ⟨fun _ => ⟨r, rfl, h1f, h2⟩, fun _ => rfl⟩

/-- C4 counterexample: with the stored email containing an upper-case letter,
a submitted value equal to the stored email does not trigger the
`current_user_email` short-circuit (the lowercasing filter changes the data
before the comparison), and the chain goes on to run the subsequent
validator, whose outcome then decides the field.  The claim as stated is
therefore false. -/
theorem C4_email_stop_counterexample :
    current_user_email ['A', '@', 'b'] (pyLower ['A', '@', 'b']) = false ∧
    email_field_validate ['A', '@', 'b'] (fun _ => Except.error "Invalid email.")
        (fun _ => Except.ok ()) (some ['A', '@', 'b']) =
      Except.error "Invalid email." :=
  ⟨by decide, rfl⟩

/-- C4 (amended): when the submitted value, after the lowercasing filter,
equals the current user stored email, the `email` field passes and the
result does not depend on the `email_validator` and `unique_user_email`
validators at all (they are skipped, by `StopValidation` or already by
`Optional` on a blank submission). -/
theorem C4_email_stop_amended (stored : List Char)
    (fmt1 uniq1 fmt2 uniq2 : List Char → Except String Unit) (r : List Char)
    (h : pyLower r = stored) :
    email_field_validate stored fmt1 uniq1 (some r) = Except.ok () ∧
    email_field_validate stored fmt1 uniq1 (some r) =
      email_field_validate stored fmt2 uniq2 (some r) := by
  have hv : ∀ (fmt uniq : List Char → Except String Unit),
      email_field_validate stored fmt uniq (some r) =
        (if (pyStrip r).isEmpty = true then Except.ok ()
         else if current_user_email stored (pyLower r) then Except.ok ()
         else match fmt (pyLower r) with
           | Except.error m => Except.error m
           | Except.ok () =>
             match uniq (pyLower r) with
             | Except.error m => Except.error m
             | Except.ok () => Except.ok ()) := fun _ _ => rfl
  have hc : current_user_email stored (pyLower r) = true := by
    show (stored == pyLower r) = true
    rw [h]
    exact beq_self_eq_true stored
  rw [hv fmt1 uniq1, hv fmt2 uniq2]
  by_cases h1 : (pyStrip r).isEmpty = true
  · simp only [if_pos h1]
    exact ⟨trivial, trivial⟩
  · simp only [if_neg h1, if_pos hc]
    exact ⟨trivial, trivial⟩

theorem C4_email_stop_amended_witness :
    pyLower ['A', '@', 'b'] = ['a', '@', 'b'] ∧
    email_field_validate ['a', '@', 'b'] (fun _ => Except.error "x")
        (fun _ => Except.ok ()) (some ['A', '@', 'b']) = Except.ok () :=
  ⟨by decide, (C4_email_stop_amended ['a', '@', 'b'] (fun _ => Except.error "x")
      (fun _ => Except.ok ()) (fun _ => Except.ok ()) (fun _ => Except.error "y")
      ['A', '@', 'b'] (by decide)).1⟩

/-- C5: when the configuration key `USERPROFILES_READONLY_FIELDS` is absent,
the `ProfileForm` constructor does not complete with no read-only field as
the claim states: `config.get` returns the default plain list `[]`, the code
calls it, and a `TypeError` is raised.  When the key holds a callable, the
fields it returns are exactly the ones marked read-only. -/
theorem C5_readonly_absent_key_raises :
    profileForm_init_readonly none =
      Except.error "TypeError: list object is not callable" ∧
    (∀ f, profileForm_init_readonly (some (ConfigVal.callable f)) =
      Except.ok (f ())) :=
  ⟨rfl, fun _ => rfl⟩

/-- C6: both `register_form_factory` and `confirm_register_form_factory`
extend the given base form with a `profile` `FormField` with separator `.`,
whose inner form applies `_update_with_csrf_disabled` to its constructor
keywords, yielding `meta` with `csrf` set to `False` on flask_wtf at least
0.14.0 and `csrf_enabled` set to `False` otherwise. -/
theorem C6_factories_extend_with_csrf_disabled (B : Type) (b : B) :
    (register_form_factory b).base = b ∧
    (confirm_register_form_factory b).base = b ∧
    (register_form_factory b).profile.separator = "." ∧
    (confirm_register_form_factory b).profile.separator = "." ∧
    (register_form_factory b).profile.innerInitKwargs = update_with_csrf_disabled ∧
    (confirm_register_form_factory b).profile.innerInitKwargs =
      update_with_csrf_disabled ∧
    (register_form_factory b).profile.innerInitKwargs true none =
      Except.ok [("meta", PyVal.vdict [("csrf", PyVal.vbool false)])] ∧
    (register_form_factory b).profile.innerInitKwargs false none =
      Except.ok [("csrf_enabled", PyVal.vbool false)] ∧
    (confirm_register_form_factory b).profile.innerInitKwargs true none =
      Except.ok [("meta", PyVal.vdict [("csrf", PyVal.vbool false)])] ∧
    (confirm_register_form_factory b).profile.innerInitKwargs false none =
      Except.ok [("csrf_enabled", PyVal.vbool false)] :=
  ⟨rfl, rfl, rfl, rfl, rfl, rfl, rfl, rfl, rfl, rfl⟩

/-- C9: the filters of the forms are total and idempotent: `strip_filter`
maps `None` to `None` and the empty string to itself and is idempotent on
every input, and the two lowercasing filters of the email fields map `None`
to `None` and are idempotent. -/
theorem C9_filters_total_idempotent :
    strip_filter none = none ∧
    strip_filter (some []) = some [] ∧
    (∀ t, strip_filter (strip_filter t) = strip_filter t) ∧
    emailLowerFilter none = none ∧
    emailRepeatLowerFilter none = none ∧
    (∀ s, pyLower (pyLower s) = pyLower s) ∧
    (∀ t, emailLowerFilter (emailLowerFilter t) = emailLowerFilter t) ∧
    (∀ t, emailRepeatLowerFilter (emailRepeatLowerFilter t) = emailRepeatLowerFilter t) :=
  ⟨rfl, rfl, strip_filter_idem, rfl, rfl, pyLower_idem, emailLowerFilter_idem,
    emailRepeatLowerFilter_idem⟩

theorem update_true_eq (d : Kwargs) :
    update_with_csrf_disabled true (some d) =
      (match dictGet (dictSetdefault d "meta" (PyVal.vdict [])) "meta" with
       | some (PyVal.vdict m) =>
           Except.ok (dictSet (dictSetdefault d "meta" (PyVal.vdict [])) "meta"
             (PyVal.vdict (dictSet m "csrf" (PyVal.vbool false))))
       | _ => Except.error "AttributeError: no update method") := rfl

/-- C7: for every keyword dictionary (including the `None` default, which
behaves as a fresh empty dictionary) whose `meta` entry, when present, is a
dictionary, `_update_with_csrf_disabled` succeeds and disables CSRF (the
`csrf` entry of `meta` set to `False` on flask_wtf at least 0.14.0, the
`csrf_enabled` key set to `False` otherwise) while every other key keeps its
original value, and every entry of `meta` other than `csrf` is preserved. -/
theorem C7_update_csrf_frame (sm : Bool) (d : Kwargs)
    (hm : ∀ v, dictGet d "meta" = some v → ∃ m, v = PyVal.vdict m) :
    update_with_csrf_disabled sm none = update_with_csrf_disabled sm (some []) ∧
    ∃ r, update_with_csrf_disabled sm (some d) = Except.ok r ∧
      (∀ k, k ≠ (if sm = true then "meta" else "csrf_enabled") →
        dictGet r k = dictGet d k) ∧
      (sm = false → dictGet r "csrf_enabled" = some (PyVal.vbool false)) ∧
      (sm = true → ∃ m0 m1,
        (dictGet d "meta" = some (PyVal.vdict m0) ∨
          (dictGet d "meta" = none ∧ m0 = [])) ∧
        dictGet r "meta" = some (PyVal.vdict m1) ∧
        dictGet m1 "csrf" = some (PyVal.vbool false) ∧
        (∀ k, k ≠ "csrf" → dictGet m1 k = dictGet m0 k)) := by
  cases sm with
  | false =>
    refine ⟨rfl, ⟨dictSet d "csrf_enabled" (PyVal.vbool false), rfl, ?_, ?_, ?_⟩⟩
    · intro k hk
      exact dictGet_dictSet_ne d _ k _ hk
    · intro _
      exact dictGet_dictSet_self d _ _
    · intro habs
      exact Bool.noConfusion habs
  | true =>
    cases hgm : dictGet d "meta" with
    | some v =>
      obtain ⟨m0, rfl⟩ := hm v hgm
      have hd1 : dictSetdefault d "meta" (PyVal.vdict []) = d :=
        dictSetdefault_of_mem d _ _ _ hgm
      refine ⟨rfl, ⟨dictSet d "meta" (PyVal.vdict (dictSet m0 "csrf" (PyVal.vbool false))),
        ?_, ?_, ?_, ?_⟩⟩
      · rw [update_true_eq, hd1, hgm]
      · intro k hk
        exact dictGet_dictSet_ne d _ k _ hk
      · intro habs
        exact Bool.noConfusion habs
      · intro _
        refine ⟨m0, dictSet m0 "csrf" (PyVal.vbool false), Or.inl rfl, ?_, ?_, ?_⟩
        · exact dictGet_dictSet_self d _ _
        · exact dictGet_dictSet_self m0 _ _
        · intro k hk
          exact dictGet_dictSet_ne m0 _ k _ hk
    | none =>
      have hd1 : dictSetdefault d "meta" (PyVal.vdict []) =
          d ++ [("meta", PyVal.vdict [])] := by
        unfold dictSetdefault
        rw [hgm]
      have hg1 : dictGet (d ++ [("meta", PyVal.vdict [])]) "meta" =
          some (PyVal.vdict []) := by
        rw [dictGet_append, hgm, Option.none_or]
        simp [dictGet]
      refine ⟨rfl, ⟨dictSet (d ++ [("meta", PyVal.vdict [])]) "meta"
          (PyVal.vdict (dictSet [] "csrf" (PyVal.vbool false))), ?_, ?_, ?_, ?_⟩⟩
      · rw [update_true_eq, hd1, hg1]
      · intro k hk
        have hk2 : k ≠ "meta" := hk
        rw [dictGet_dictSet_ne _ _ k _ hk2, dictGet_append]
        have hnone : dictGet [("meta", PyVal.vdict [])] k = none := by
          simp [dictGet, Ne.symm hk2]
        rw [hnone, Option.or_none]
      · intro habs
        exact Bool.noConfusion habs
      · intro _
        refine ⟨[], dictSet [] "csrf" (PyVal.vbool false), Or.inr ⟨rfl, rfl⟩, ?_, ?_, ?_⟩
        · exact dictGet_dictSet_self _ _ _
        · exact dictGet_dictSet_self _ _ _
        · intro k hk
          exact dictGet_dictSet_ne [] _ k _ hk

theorem C7_update_csrf_frame_witness :
    (∀ v, dictGet [("x", PyVal.vstr "y")] "meta" = some v →
      ∃ m, v = PyVal.vdict m) ∧
    (update_with_csrf_disabled true none = update_with_csrf_disabled true (some []) ∧
     ∃ r, update_with_csrf_disabled true (some [("x", PyVal.vstr "y")]) = Except.ok r ∧
      (∀ k, k ≠ (if true = true then "meta" else "csrf_enabled") →
        dictGet r k = dictGet [("x", PyVal.vstr "y")] k) ∧
      (true = false → dictGet r "csrf_enabled" = some (PyVal.vbool false)) ∧
      (true = true → ∃ m0 m1,
        (dictGet [("x", PyVal.vstr "y")] "meta" = some (PyVal.vdict m0) ∨
          (dictGet [("x", PyVal.vstr "y")] "meta" = none ∧ m0 = [])) ∧
        dictGet r "meta" = some (PyVal.vdict m1) ∧
        dictGet m1 "csrf" = some (PyVal.vbool false) ∧
        (∀ k, k ≠ "csrf" → dictGet m1 k = dictGet m0 k))) := by
  have hm : ∀ v, dictGet [("x", PyVal.vstr "y")] "meta" = some v →
      ∃ m, v = PyVal.vdict m := by
    intro v hv
    rw [show dictGet [("x", PyVal.vstr "y")] "meta" = none from rfl] at hv
    exact Option.noConfusion hv
  exact ⟨hm, C7_update_csrf_frame true [("x", PyVal.vstr "y")] hm⟩

/-- C8: `ProfileForm` declares the name fields (`username`, `first_name`,
`last_name`), the address fields (`street`, `postal_code`, `city`), four
phone fields with the phone `Regexp` validator, a `gender` select and a
`country` select with empty declared choices; every string field carries the
whitespace-stripping filter, and the country choices are taken from the
`USERPROFILES_COUNTRIES` configuration callable when present and stay empty
otherwise. -/
theorem C8_fields_filters_countries :
    (fieldSpecOf "username").map FieldSpec.kind = some FieldKind.stringField ∧
    (fieldSpecOf "first_name").map FieldSpec.kind = some FieldKind.stringField ∧
    (fieldSpecOf "last_name").map FieldSpec.kind = some FieldKind.stringField ∧
    (fieldSpecOf "street").map FieldSpec.kind = some FieldKind.stringField ∧
    (fieldSpecOf "postal_code").map FieldSpec.kind = some FieldKind.stringField ∧
    (fieldSpecOf "city").map FieldSpec.kind = some FieldKind.stringField ∧
    (fieldSpecOf "home_phone").map FieldSpec.hasPhoneRegexp = some true ∧
    (fieldSpecOf "business_phone").map FieldSpec.hasPhoneRegexp = some true ∧
    (fieldSpecOf "mobile_phone").map FieldSpec.hasPhoneRegexp = some true ∧
    (fieldSpecOf "other_phone").map FieldSpec.hasPhoneRegexp = some true ∧
    (fieldSpecOf "gender").map FieldSpec.kind = some FieldKind.selectField ∧
    fieldSpecOf "country" = some ⟨FieldKind.selectField, false, false, []⟩ ∧
    (profileFormFields.all fun p =>
      !(decide (p.2.kind = FieldKind.stringField)) || p.2.hasStripFilter) = true ∧
    profileForm_init_countries none = [] ∧
    (∀ f, profileForm_init_countries (some f) = f ()) :=
  ⟨rfl, rfl, rfl, rfl, rfl, rfl, rfl, rfl, rfl, rfl, rfl, rfl, by decide, rfl,
    fun _ => rfl⟩
